import Mathlib

/-!
# Verification of openllm-prompt-mender: trainset store and judge-metric contract

Shallow embedding of the repository code that the specification covers:

* `src/openllm_prompt_mender/utils/data_utils.py` — `save_trainset` and
  `load_trainset`, a JSONL reader/writer for `dspy.Example` records;
* `src/openllm_prompt_mender/apps/search_assistant.py` — `llm_judge_metric`
  averaging three boolean judge criteria;
* `src/openllm_prompt_mender/apps/audio_assistant.py` — `llm_judge_metric`
  averaging six float judge criteria.

External dependencies are modelled at their interfaces:

* JSON field values in this code are strings, numbers or booleans (`JVal`);
  Python float arithmetic on the small exact values that occur here is
  modelled by `Rat`.
* A `dspy.Example` is an ordered field store (`_store`) plus a declared
  sequence of input keys (`with_inputs` overwrites the declaration without
  checking membership in the store, as dspy does).
* The Python standard library `json` module is external to the repository;
  it is abstracted by `Line`: `json.dumps` of a field mapping yields a line
  that `json.loads` parses back to the same mapping (guaranteed by the
  library), and any other line makes `json.loads` raise a JSONDecodeError
  carrying the document string and a character position inside it.
* The file system is a map from paths to optional file contents; a file is
  a list of lines.
* The judge model call inside each metric is an opaque function returning a
  dynamic record of named fields, as a `dspy.Prediction` is; attribute
  access on a record missing the field raises AttributeError.
* Each metric is embedded in state-passing style: it returns the Python
  result (a value or a raised error) together with the example as it stands
  after the call, so that absence of mutation is a provable statement.
-/

namespace Mender

/-- JSON field value as used by this repository: string, number or boolean.
Python float values occurring in the claims are exact small rationals. -/
inductive JVal where
  | s : String → JVal
  | n : Rat → JVal
  | b : Bool → JVal
deriving DecidableEq

/-- Ordered mapping from field names to values: the `_store` of a
`dspy.Example`, a parsed JSON object, or the fields of a `dspy.Prediction`. -/
abbrev Record := List (String × JVal)

/-- Lookup of a named field in a record (Python dict/attribute access,
first binding wins; Python dicts have unique keys). -/
def lookupField (name : String) : Record → Option JVal
  | [] => none
  | (k, v) :: rest => if k = name then some v else lookupField name rest

/-- Embedding of `dspy.Example`: ordered field store plus the declared
input-field keys. -/
structure Example where
  store : Record
  input_keys : List String
deriving DecidableEq

/-- Embedding of `dspy.Example(**data)`: an example built from a field
mapping, with no input keys declared yet. -/
def Example.ofDict (data : Record) : Example :=
  { store := data, input_keys := [] }

/-- Embedding of `dspy.Example.toDict()`: returns the field store. -/
def toDict (ex : Example) : Record := ex.store

/-- Embedding of `dspy.Example.with_inputs(*keys)`: returns a copy whose
declared input keys are exactly the given keys. dspy does not check that
the keys occur among the field names of the store. -/
def with_inputs (ex : Example) (keys : List String) : Example :=
  { store := ex.store, input_keys := keys }

/-- Errors raised by `load_trainset`: `FileNotFoundError` when opening a
missing path, and `json.JSONDecodeError` from `json.loads` on a malformed
line. A JSONDecodeError carries the document passed to `json.loads` — here
always the single offending line — and a character position inside that
document; it does not carry the index of the line within the file. -/
inductive LoadError where
  | fileNotFound (path : String)
  | parseError (doc : String) (pos : Nat)
deriving DecidableEq

/-- One line of a JSONL file, abstracting the Python `json` module (which
is external to the repository): a line written by `json.dumps` of a field
mapping, which `json.loads` parses back to that mapping, or a malformed
line on which `json.loads` raises a JSONDecodeError with the given
document and position. -/
inductive Line where
  | obj : Record → Line
  | malformed : String → Nat → Line
deriving DecidableEq

/-- Abstraction of `json.dumps(d, ensure_ascii=False)` for a field mapping:
the serialized line (string field values have their newlines escaped by
`json.dumps`, so each record occupies exactly one line). -/
def json_dumps (d : Record) : Line := Line.obj d

/-- Abstraction of `json.loads` applied to one line. -/
def json_loads : Line → Except LoadError Record
  | Line.obj d => Except.ok d
  | Line.malformed doc pos => Except.error (LoadError.parseError doc pos)

/-- File system state: a path either holds a file (a list of lines) or does
not exist. -/
def FS := String → Option (List Line)

/-- Writing a file: `open(path, "w")` creates or truncates the destination,
leaving every other path unchanged. -/
def writeFile (fs : FS) (path : String) (content : List Line) : FS :=
  fun q => if q = path then some content else fs q

/-- Embedding of `save_trainset(trainset, file_path)` from
`utils/data_utils.py`: opens the path for writing (create/truncate) and
writes `json.dumps(ex.toDict(), ensure_ascii=False) + "\n"` for each
example, in order — one line per example. Returns the updated file
system. -/
def save_trainset (trainset : List Example) (file_path : String) (fs : FS) : FS :=
  writeFile fs file_path (trainset.map fun ex => json_dumps (toDict ex))

/-- Embedding of the `for line in f` loop body of `load_trainset`: parse
each line with `json.loads`, rebuild `dspy.Example(**data)`, attach the
input keys with `with_inputs`, and append. A raised JSONDecodeError
propagates and discards the accumulated local list. -/
def load_lines (input_keys : List String) : List Line → Except LoadError (List Example)
  | [] => Except.ok []
  | line :: rest =>
    match json_loads line with
    | Except.error e => Except.error e
    | Except.ok data =>
      match load_lines input_keys rest with
      | Except.error e => Except.error e
      | Except.ok tail => Except.ok (with_inputs (Example.ofDict data) input_keys :: tail)

/-- Embedding of `load_trainset(file_path, input_keys)` from
`utils/data_utils.py`: `open(file_path, "r")` raises FileNotFoundError on a
missing path; otherwise the file is read line by line by `load_lines`. -/
def load_trainset (fs : FS) (file_path : String) (input_keys : List String) :
    Except LoadError (List Example) :=
  match fs file_path with
  | none => Except.error (LoadError.fileNotFound file_path)
  | some lines => load_lines input_keys lines

/-- The Python signature is `load_trainset(file_path, input_keys=("question",
"context"))`: this is the call with the default input-keys argument. -/
def load_trainset_default (fs : FS) (file_path : String) :
    Except LoadError (List Example) :=
  load_trainset fs file_path ["question", "context"]

/-- Errors the Python metric bodies can raise: attribute access on a record
missing the field, and type/value errors from arithmetic or `float()` on a
non-numeric value. -/
inductive PyError where
  | attributeError (name : String)
  | typeError
  | valueError
deriving DecidableEq

/-- Attribute access `r.name` on a `dspy.Example` or `dspy.Prediction`
(both delegate to their field store): raises AttributeError when the field
is absent. -/
def getAttr (r : Record) (name : String) : Except PyError JVal :=
  match lookupField name r with
  | some v => Except.ok v
  | none => Except.error (PyError.attributeError name)

/-- The Python builtin `float()` applied to a judge criterion value: a
boolean maps to 1.0 or 0.0, a number to itself. A string criterion does not
occur in any property considered here; it is modelled as the raised-error
case (`float()` of a non-numeric string raises ValueError). -/
def pyFloat : JVal → Except PyError Rat
  | JVal.b b => Except.ok (if b then 1 else 0)
  | JVal.n q => Except.ok q
  | JVal.s _ => Except.error PyError.valueError

/-- A numeric operand of the Python `+`/`/` chain in the audio metric: a
boolean behaves as an integer, a number as itself, and a string operand
makes the arithmetic raise TypeError (a string criterion never yields a
numeric score: string-string concatenation would still fail at the final
division). -/
def pyNum : JVal → Except PyError Rat
  | JVal.b b => Except.ok (if b then 1 else 0)
  | JVal.n q => Except.ok q
  | JVal.s _ => Except.error PyError.typeError

/-- The Python comparison `value < 0.5` in the diagnostic branch of the
audio metric: defined for numbers and booleans, raises TypeError for a
string. -/
def pyLtHalf : JVal → Except PyError Bool
  | JVal.n q => Except.ok (decide (q < 1/2))
  | JVal.b b => Except.ok (decide ((if b then (1 : Rat) else 0) < 1/2))
  | JVal.s _ => Except.error PyError.typeError

/-- Embedding of the `dspy.Prediction(score=..., feedback=...)` each metric
returns: a numeric score and a feedback value (the judge rationale). -/
structure Prediction where
  score : Rat
  feedback : JVal
deriving DecidableEq

namespace SearchAssistant

/-- Embedding of `llm_judge_metric(example, pred)` from
`apps/search_assistant.py`. The judge (a `dspy.ChainOfThought` model call,
external) is an opaque function from the context, question and answer
values to an assessment record. The body reads `example.context`,
`example.question` and `pred.answer`, calls the judge, averages
`float(assessment.is_grounded)`, `float(assessment.language_match)` and
`float(assessment.citation_correct)` over 3.0, and returns a prediction
with that score and `assessment.rationale` as feedback. State-passing
embedding: the second component is the example after the call (the body
only reads its attributes). -/
def llm_judge_metric (judge : JVal → JVal → JVal → Record)
    (ex : Example) (pred : Record) : Except PyError Prediction × Example :=
  ((do
    let ctx ← getAttr ex.store "context"
    let q ← getAttr ex.store "question"
    let ans ← getAttr pred "answer"
    let assessment := judge ctx q ans
    let v1 ← pyFloat (← getAttr assessment "is_grounded")
    let v2 ← pyFloat (← getAttr assessment "language_match")
    let v3 ← pyFloat (← getAttr assessment "citation_correct")
    let total_score := (v1 + v2 + v3) / 3
    let feedback ← getAttr assessment "rationale"
    Except.ok { score := total_score, feedback := feedback }),
   ex)

end SearchAssistant

namespace AudioAssistant

/-- Embedding of `llm_judge_metric(example, pred)` from
`apps/audio_assistant.py`. The judge is an opaque function from the
requirements and template values to an assessment record. The body reads
`example.requirements` and `pred.template`, calls the judge, evaluates the
diagnostic comparison `assessment.language_consistency_score < 0.5` (whose
prints are a side channel that only re-reads already fetched fields), sums
the six criterion scores, divides by 6.0, and returns a prediction with
that score and `assessment.rationale` as feedback. State-passing
embedding: the second component is the example after the call. -/
def llm_judge_metric (judge : JVal → JVal → Record)
    (ex : Example) (pred : Record) : Except PyError Prediction × Example :=
  ((do
    let req ← getAttr ex.store "requirements"
    let tmpl ← getAttr pred "template"
    let assessment := judge req tmpl
    let _low ← pyLtHalf (← getAttr assessment "language_consistency_score")
    let v1 ← pyNum (← getAttr assessment "general_score")
    let v2 ← pyNum (← getAttr assessment "tone_score")
    let v3 ← pyNum (← getAttr assessment "scenario_alignment_score")
    let v4 ← pyNum (← getAttr assessment "audience_match_score")
    let v5 ← pyNum (← getAttr assessment "language_consistency_score")
    let v6 ← pyNum (← getAttr assessment "language_appropriateness_score")
    let total_score := (v1 + v2 + v3 + v4 + v5 + v6) / 6
    let feedback ← getAttr assessment "rationale"
    Except.ok { score := total_score, feedback := feedback }),
   ex)

end AudioAssistant

/-- Arithmetic mean of a list of criterion values (the aggregation the
specification describes). -/
def mean (xs : List Rat) : Rat := xs.sum / xs.length

/-! ## Concrete fixtures

Closed instances used to instantiate the theorems below at concrete
inputs. -/

/-- The trainset path both apps use. -/
def trainPath : String := "data/trainset.jsonl"

/-- File system with no file at any path. -/
def fsMissing : FS := fun _ => none

/-- File system holding an empty (zero-line) trainset file. -/
def fsEmpty : FS := fun p => if p = trainPath then some [] else none

/-- A well-formed serialized example record. -/
def sampleRecord : Record :=
  [("question", JVal.s "q1"), ("context", JVal.s "c1"), ("answer", JVal.s "a1")]

/-- File system holding a one-record well-formed trainset file. -/
def fsOneGood : FS :=
  fun p => if p = trainPath then some [Line.obj sampleRecord] else none

/-- A trainset file whose only line is malformed. -/
def badLinesFirst : List Line := [Line.malformed "not a json object" 0]

/-- A trainset file with one good line followed by the same malformed
line, now at index 1. -/
def badLinesSecond : List Line :=
  [Line.obj sampleRecord, Line.malformed "not a json object" 0]

/-- File system holding `badLinesFirst` at the trainset path. -/
def fsBadFirst : FS := fun p => if p = trainPath then some badLinesFirst else none

/-- File system holding `badLinesSecond` at the trainset path. -/
def fsBadSecond : FS := fun p => if p = trainPath then some badLinesSecond else none

/-- File system holding a well-formed file whose record has neither a
`question` nor a `context` field. -/
def fsOddFields : FS :=
  fun p => if p = trainPath then some [Line.obj [("weird", JVal.b true)]] else none

/-- A search-app example with `question` and `context` fields. -/
def exSearch : Example :=
  { store := [("question", JVal.s "q"), ("context", JVal.s "c")]
  , input_keys := ["question", "context"] }

/-- A search-app program output with an `answer` field. -/
def prSearch : Record := [("answer", JVal.s "a")]

/-- A search judge returning the three boolean criteria with the given
values, plus a rationale. -/
def searchJudgeOf (g l c : Bool) : JVal → JVal → JVal → Record := fun _ _ _ =>
  [("is_grounded", JVal.b g), ("language_match", JVal.b l),
   ("citation_correct", JVal.b c), ("rationale", JVal.s "because")]

/-- A search judge whose response misses the `language_match` criterion. -/
def searchJudgeMissing : JVal → JVal → JVal → Record := fun _ _ _ =>
  [("is_grounded", JVal.b true), ("citation_correct", JVal.b true),
   ("rationale", JVal.s "because")]

/-- An audio-app example with a `requirements` field. -/
def exAudio : Example :=
  { store := [("requirements", JVal.s "req")], input_keys := ["requirements"] }

/-- An audio-app program output with a `template` field. -/
def prAudio : Record := [("template", JVal.s "tpl")]

/-- An audio judge returning all six float criteria at the given value,
plus a rationale. -/
def audioJudgeOf (v : Rat) : JVal → JVal → Record := fun _ _ =>
  [("general_score", JVal.n v), ("tone_score", JVal.n v),
   ("scenario_alignment_score", JVal.n v), ("audience_match_score", JVal.n v),
   ("language_consistency_score", JVal.n v),
   ("language_appropriateness_score", JVal.n v), ("rationale", JVal.s "because")]

/-- An audio judge whose response misses the
`language_appropriateness_score` criterion. -/
def audioJudgeMissing : JVal → JVal → Record := fun _ _ =>
  [("general_score", JVal.n 1), ("tone_score", JVal.n 1),
   ("scenario_alignment_score", JVal.n 1), ("audience_match_score", JVal.n 1),
   ("language_consistency_score", JVal.n 1), ("rationale", JVal.s "because")]

/-! ## Helper lemmas -/

/-- Inversion of a successful `Except` bind. -/
theorem bind_ok_inv {ε α β : Type} {x : Except ε α} {f : α → Except ε β} {b : β}
    (h : x.bind f = Except.ok b) : ∃ a, x = Except.ok a ∧ f a = Except.ok b := by
  cases x with
  | error e => simp [Except.bind] at h
  | ok a => exact ⟨a, rfl, h⟩

/-- Successful attribute access means the field is present. -/
theorem getAttr_ok {r : Record} {name : String} {v : JVal}
    (h : getAttr r name = Except.ok v) : lookupField name r = some v := by
  unfold getAttr at h
  cases hl : lookupField name r with
  | none => rw [hl] at h; exact absurd h (by simp)
  | some w => rw [hl] at h; simp at h; rw [h]

/-- Loading a file of well-formed object lines yields exactly those stores
with the supplied input keys attached. -/
theorem load_lines_objs (ks : List String) (ds : List Record) :
    load_lines ks (ds.map Line.obj) = Except.ok (ds.map fun d => Example.mk d ks) := by
  induction ds with
  | nil => rfl
  | cons d rest ih =>
      simp [load_lines, json_loads, ih, with_inputs, Example.ofDict]

/-- A successful load characterizes the file: every line is a well-formed
object line, and the result pairs each store with the supplied keys. -/
theorem load_lines_ok_shape {ks : List String} {lines : List Line} {xs : List Example}
    (h : load_lines ks lines = Except.ok xs) :
    ∃ ds : List Record,
      lines = ds.map Line.obj ∧ xs = ds.map fun d => Example.mk d ks := by
  induction lines generalizing xs with
  | nil =>
      simp only [load_lines, Except.ok.injEq] at h
      exact ⟨[], rfl, by simp [← h]⟩
  | cons line rest ih =>
      cases line with
      | malformed doc pos => simp [load_lines, json_loads] at h
      | obj d =>
          simp only [load_lines, json_loads] at h
          cases hr : load_lines ks rest with
          | error e => rw [hr] at h; exact absurd h (by simp)
          | ok tail =>
              rw [hr] at h
              obtain ⟨ds, hds, htail⟩ := ih hr
              refine ⟨d :: ds, by simp [hds], ?_⟩
              simp only [Except.ok.injEq] at h
              rw [← h, htail]
              simp [with_inputs, Example.ofDict]

/-- A file containing some malformed line fails to load with a parse
error. -/
theorem load_lines_error_of_malformed (ks : List String) :
    ∀ lines : List Line,
      (∃ (i : Nat) (doc : String) (pos : Nat),
         lines[i]? = some (Line.malformed doc pos)) →
      ∃ doc pos, load_lines ks lines = Except.error (LoadError.parseError doc pos) := by
  intro lines
  induction lines with
  | nil => rintro ⟨i, doc, pos, h⟩; simp at h
  | cons line rest ih =>
      rintro ⟨i, doc, pos, h⟩
      cases line with
      | malformed d p => exact ⟨d, p, rfl⟩
      | obj d =>
          cases i with
          | zero => simp at h
          | succ j =>
              obtain ⟨doc2, pos2, hrest⟩ := ih ⟨j, doc, pos, by simpa using h⟩
              exact ⟨doc2, pos2, by simp [load_lines, json_loads, hrest]⟩

/-- The parse error raised is the one of the first malformed line. -/
theorem load_lines_error_at_first (ks : List String) :
    ∀ (lines : List Line) (i : Nat) (doc : String) (pos : Nat),
      lines[i]? = some (Line.malformed doc pos) →
      (∀ j, j < i → ∀ doc2 pos2, lines[j]? ≠ some (Line.malformed doc2 pos2)) →
      load_lines ks lines = Except.error (LoadError.parseError doc pos) := by
  intro lines
  induction lines with
  | nil => intro i doc pos h _; simp at h
  | cons line rest ih =>
      intro i doc pos hget hfirst
      cases line with
      | malformed d2 p2 =>
          cases i with
          | zero =>
              simp only [List.getElem?_cons_zero, Option.some.injEq] at hget
              cases hget
              rfl
          | succ j =>
              exact absurd (by simp : (Line.malformed d2 p2 :: rest)[0]?
                  = some (Line.malformed d2 p2))
                (hfirst 0 (Nat.succ_pos j) d2 p2)
      | obj d =>
          cases i with
          | zero => simp at hget
          | succ j =>
              have hrest := ih j doc pos (by simpa using hget)
                (fun j2 hj2 doc2 pos2 => by
                  have := hfirst (j2 + 1) (by omega) doc2 pos2
                  simpa using this)
              simp [load_lines, json_loads, hrest]

/-! ## Claim theorems -/

/-- C1. For every sequence of Example records whose field values are
strings, numbers, or booleans, calling save_trainset on the sequence and
then load_trainset on the same path yields a sequence of records with
identical field names and identical field values, in the original order,
for every choice of input-field subset supplied at load time. -/
theorem trainset_round_trip (ts : List Example) (fs : FS) (p : String)
    (ks : List String) :
    ∃ ts' : List Example,
      load_trainset (save_trainset ts p fs) p ks = Except.ok ts'
      ∧ ts'.map Example.store = ts.map Example.store
      ∧ ∀ e ∈ ts', e.input_keys = ks := by
  refine ⟨ts.map fun e => Example.mk e.store ks, ?_, ?_, ?_⟩
  · have hfile : save_trainset ts p fs p
        = some ((ts.map Example.store).map Line.obj) := by
      simp [save_trainset, writeFile, json_dumps, toDict, List.map_map]
    simp only [load_trainset, hfile, load_lines_objs ks (ts.map Example.store)]
    simp [List.map_map]
  · simp [List.map_map]
  · intro e he
    simp only [List.mem_map] at he
    obtain ⟨e0, _, rfl⟩ := he
    rfl

/-- C5. For every example and prediction, llm_judge_metric leaves the
example unchanged: after the call, every field name and field value of the
example, and its declared input-field subset, are identical to their
values before the call (both the search-assistant and the audio-assistant
metric). -/
theorem metric_preserves_example :
    (∀ (judge : JVal → JVal → JVal → Record) (ex : Example) (pr : Record),
       (SearchAssistant.llm_judge_metric judge ex pr).2 = ex)
    ∧ ∀ (judge : JVal → JVal → Record) (ex : Example) (pr : Record),
       (AudioAssistant.llm_judge_metric judge ex pr).2 = ex :=
  ⟨fun _ _ _ => rfl, fun _ _ _ => rfl⟩

/-- C7. For every path whose file exists and is empty, load_trainset
returns the empty sequence and does not fail; in particular, save_trainset
of an empty sequence followed by load_trainset yields an empty
sequence. -/
theorem empty_file_round_trip :
    (∀ (fs : FS) (p : String) (ks : List String), fs p = some [] →
       load_trainset fs p ks = Except.ok [])
    ∧ ∀ (fs : FS) (p : String) (ks : List String),
       load_trainset (save_trainset [] p fs) p ks = Except.ok [] := by
  constructor
  · intro fs p ks h
    simp [load_trainset, h, load_lines]
  · intro fs p ks
    have hfile : save_trainset [] p fs p = some [] := by
      simp [save_trainset, writeFile]
    simp [load_trainset, hfile, load_lines]

/-- Witness for C7: loading the concrete empty trainset file yields the
empty list. -/
theorem empty_file_round_trip_witness :
    load_trainset fsEmpty trainPath ["question", "context"] = Except.ok [] :=
  empty_file_round_trip.1 fsEmpty trainPath ["question", "context"] rfl

/-- C8. For every path that does not exist, load_trainset fails with a
not-found error and returns no records. -/
theorem missing_path_not_found (fs : FS) (p : String) (ks : List String)
    (h : fs p = none) :
    load_trainset fs p ks = Except.error (LoadError.fileNotFound p) := by
  simp [load_trainset, h]

/-- Witness for C8: loading from the file system with no files fails with
a not-found error naming the path. -/
theorem missing_path_not_found_witness :
    load_trainset fsMissing trainPath ["question", "context"]
      = Except.error (LoadError.fileNotFound trainPath) :=
  missing_path_not_found fsMissing trainPath ["question", "context"] rfl

/-- C9. For every sequence of examples and every writable path,
save_trainset writes exactly one self-contained JSON text record per line,
one line per example, in the order of the input sequence, and
truncates/overwrites any existing file at the destination so that the
resulting file contains only the given examples. -/
theorem save_trainset_writes_jsonl (ts : List Example) (p : String) (fs : FS) :
    save_trainset ts p fs p = some (ts.map fun e => json_dumps (toDict e))
    ∧ (ts.map fun e => json_dumps (toDict e)).length = ts.length
    ∧ (∀ i : Nat, (ts.map fun e => json_dumps (toDict e))[i]?
        = (ts[i]?).map fun e => json_dumps (toDict e))
    ∧ ∀ q, q ≠ p → save_trainset ts p fs q = fs q := by
  refine ⟨?_, by simp, ?_, ?_⟩
  · simp [save_trainset, writeFile]
  · intro i
    simp [List.getElem?_map]
  · intro q hq
    simp [save_trainset, writeFile, hq]

/-- Witness for C9: writing the empty trainset to the trainset path leaves
the distinct path "other" untouched. -/
theorem save_trainset_writes_jsonl_witness :
    save_trainset [] trainPath fsMissing "other" = fsMissing "other" :=
  (save_trainset_writes_jsonl [] trainPath fsMissing).2.2.2 "other" (by decide)

/-- C10. When load_trainset is called without an explicit input-field-name
declaration, every returned record has exactly the fields named "question"
and "context" marked as its input fields, regardless of which field names
actually occur in the file. -/
theorem default_input_keys_question_context (fs : FS) (p : String)
    (xs : List Example) (h : load_trainset_default fs p = Except.ok xs) :
    ∀ e ∈ xs, e.input_keys = ["question", "context"] := by
  simp only [load_trainset_default, load_trainset] at h
  cases hf : fs p with
  | none => rw [hf] at h; exact absurd h (by simp)
  | some lines =>
      rw [hf] at h
      obtain ⟨ds, _, hxs⟩ := load_lines_ok_shape h
      intro e he
      rw [hxs] at he
      simp only [List.mem_map] at he
      obtain ⟨d, _, rfl⟩ := he
      rfl

/-- C3, counterexample. The claim says the parse error identifies the
position of the offending line. It does not: `json.loads` is applied to
one line at a time, so the raised JSONDecodeError carries only that line
and a character position inside it, never the index of the line within the
file (and the loop adds no such context). Two files whose only malformed
line sits at different positions — index 0 in `badLinesFirst`, index 1 in
`badLinesSecond` — make load_trainset raise the very same error, so the
error cannot identify the position of the offending line. -/
theorem parse_error_lacks_line_index :
    load_trainset fsBadFirst trainPath ["question", "context"]
      = load_trainset fsBadSecond trainPath ["question", "context"]
    ∧ load_trainset fsBadFirst trainPath ["question", "context"]
      = Except.error (LoadError.parseError "not a json object" 0)
    ∧ badLinesFirst[0]? = some (Line.malformed "not a json object" 0)
    ∧ badLinesSecond[1]? = some (Line.malformed "not a json object" 0) :=
  ⟨rfl, rfl, rfl, rfl⟩

/-- C3, amended. For every file containing at least one line that is not a
well-formed record, load_trainset fails with the parse error of the first
malformed line — carrying that line and a character position inside it,
though not the line's index in the file — and returns no partial sequence
of records. -/
theorem malformed_line_aborts_load :
    (∀ (fs : FS) (p : String) (ks : List String) (lines : List Line),
       fs p = some lines →
       (∃ (i : Nat) (doc : String) (pos : Nat),
          lines[i]? = some (Line.malformed doc pos)) →
       ∃ (doc : String) (pos : Nat),
         load_trainset fs p ks = Except.error (LoadError.parseError doc pos))
    ∧ ∀ (fs : FS) (p : String) (ks : List String) (lines : List Line)
        (i : Nat) (doc : String) (pos : Nat),
        fs p = some lines →
        lines[i]? = some (Line.malformed doc pos) →
        (∀ j, j < i → ∀ doc2 pos2, lines[j]? ≠ some (Line.malformed doc2 pos2)) →
        load_trainset fs p ks = Except.error (LoadError.parseError doc pos) := by
  constructor
  · intro fs p ks lines hf hbad
    obtain ⟨doc, pos, h⟩ := load_lines_error_of_malformed ks lines hbad
    exact ⟨doc, pos, by simp [load_trainset, hf, h]⟩
  · intro fs p ks lines i doc pos hf hget hfirst
    have h := load_lines_error_at_first ks lines i doc pos hget hfirst
    simp [load_trainset, hf, h]

/-- Witness for C3 (amended): the concrete file with a well-formed first
line and a malformed second line fails with the parse error of that second
line. -/
theorem malformed_line_aborts_load_witness :
    load_trainset fsBadSecond trainPath ["question", "context"]
      = Except.error (LoadError.parseError "not a json object" 0) :=
  malformed_line_aborts_load.2 fsBadSecond trainPath ["question", "context"]
    badLinesSecond 1 "not a json object" 0 rfl rfl
    (fun j hj doc2 pos2 => by
      interval_cases j
      simp [badLinesSecond, sampleRecord])

/-- C6. For every well-formed trainset file and every two distinct
input-field-name declarations, the two sequences returned by load_trainset
on that file with those declarations have identical field names and field
values record by record, differing only in which fields are marked as
inputs; each record's input subset equals the declaration supplied at that
load call. -/
theorem input_field_independence (fs : FS) (p : String) (ks1 ks2 : List String)
    (xs1 : List Example) (_hne : ks1 ≠ ks2)
    (h1 : load_trainset fs p ks1 = Except.ok xs1) :
    ∃ xs2 : List Example,
      load_trainset fs p ks2 = Except.ok xs2
      ∧ xs2.map Example.store = xs1.map Example.store
      ∧ (∀ e ∈ xs1, e.input_keys = ks1)
      ∧ ∀ e ∈ xs2, e.input_keys = ks2 := by
  simp only [load_trainset] at h1 ⊢
  cases hf : fs p with
  | none => rw [hf] at h1; exact absurd h1 (by simp)
  | some lines =>
      rw [hf] at h1
      obtain ⟨ds, hds, hxs1⟩ := load_lines_ok_shape h1
      refine ⟨ds.map fun d => Example.mk d ks2, ?_, ?_, ?_, ?_⟩
      · rw [hds]
        exact load_lines_objs ks2 ds
      · rw [hxs1]
        simp [List.map_map]
      · intro e he
        rw [hxs1] at he
        simp only [List.mem_map] at he
        obtain ⟨d, _, rfl⟩ := he
        rfl
      · intro e he
        simp only [List.mem_map] at he
        obtain ⟨d, _, rfl⟩ := he
        rfl

/-- Witness for C6: the one-record file loaded with the default
declaration and with the declaration ["answer"] yields the same store with
the two different input subsets. -/
theorem input_field_independence_witness :
    ∃ xs2 : List Example,
      load_trainset fsOneGood trainPath ["answer"] = Except.ok xs2
      ∧ xs2.map Example.store
          = [Example.mk sampleRecord ["question", "context"]].map Example.store
      ∧ (∀ e ∈ [Example.mk sampleRecord ["question", "context"]],
           e.input_keys = ["question", "context"])
      ∧ ∀ e ∈ xs2, e.input_keys = ["answer"] :=
  input_field_independence fsOneGood trainPath ["question", "context"] ["answer"]
    [Example.mk sampleRecord ["question", "context"]] (by decide) rfl

/-- Witness for C10: loading a file whose only record has a single field
named "weird" still marks "question" and "context" as the input fields. -/
theorem default_input_keys_question_context_witness :
    (Example.mk [("weird", JVal.b true)] ["question", "context"]).input_keys
      = ["question", "context"] :=
  default_input_keys_question_context fsOddFields trainPath
    [Example.mk [("weird", JVal.b true)] ["question", "context"]] rfl
    (Example.mk [("weird", JVal.b true)] ["question", "context"]) (by simp)

/-- C2. For every example and prediction, the score returned by
llm_judge_metric equals the unweighted arithmetic mean of all the judge
criterion values, with boolean criteria mapped to 1.0 for true and 0.0 for
false: in the search assistant the sum of the three boolean criteria
divided by 3, and in the audio assistant the sum of the six float criteria
divided by 6. In particular, criterion values 1.0, 0.0, 1.0 yield a score
within 0.001 of 0.667, all criteria 1.0 yield exactly 1.0, and all
criteria 0.0 yield exactly 0.0. -/
theorem metric_score_is_mean :
    (∀ (judge : JVal → JVal → JVal → Record) (ex : Example) (pr : Record)
       (ctx q ans r : JVal) (g l c : Bool),
       getAttr ex.store "context" = Except.ok ctx →
       getAttr ex.store "question" = Except.ok q →
       getAttr pr "answer" = Except.ok ans →
       getAttr (judge ctx q ans) "is_grounded" = Except.ok (JVal.b g) →
       getAttr (judge ctx q ans) "language_match" = Except.ok (JVal.b l) →
       getAttr (judge ctx q ans) "citation_correct" = Except.ok (JVal.b c) →
       getAttr (judge ctx q ans) "rationale" = Except.ok r →
       (SearchAssistant.llm_judge_metric judge ex pr).1
         = Except.ok ⟨mean [if g then 1 else 0, if l then 1 else 0,
                            if c then 1 else 0], r⟩)
    ∧ (∀ (judge : JVal → JVal → Record) (ex : Example) (pr : Record)
         (req tmpl r : JVal) (v1 v2 v3 v4 v5 v6 : Rat),
         getAttr ex.store "requirements" = Except.ok req →
         getAttr pr "template" = Except.ok tmpl →
         getAttr (judge req tmpl) "general_score" = Except.ok (JVal.n v1) →
         getAttr (judge req tmpl) "tone_score" = Except.ok (JVal.n v2) →
         getAttr (judge req tmpl) "scenario_alignment_score" = Except.ok (JVal.n v3) →
         getAttr (judge req tmpl) "audience_match_score" = Except.ok (JVal.n v4) →
         getAttr (judge req tmpl) "language_consistency_score" = Except.ok (JVal.n v5) →
         getAttr (judge req tmpl) "language_appropriateness_score" = Except.ok (JVal.n v6) →
         getAttr (judge req tmpl) "rationale" = Except.ok r →
         (AudioAssistant.llm_judge_metric judge ex pr).1
           = Except.ok ⟨mean [v1, v2, v3, v4, v5, v6], r⟩)
    ∧ ((SearchAssistant.llm_judge_metric (searchJudgeOf true false true)
          exSearch prSearch).1 = Except.ok ⟨2/3, JVal.s "because"⟩
       ∧ |(2 : Rat)/3 - 667/1000| ≤ 1/1000)
    ∧ (SearchAssistant.llm_judge_metric (searchJudgeOf true true true)
         exSearch prSearch).1 = Except.ok ⟨1, JVal.s "because"⟩
    ∧ (SearchAssistant.llm_judge_metric (searchJudgeOf false false false)
         exSearch prSearch).1 = Except.ok ⟨0, JVal.s "because"⟩
    ∧ (AudioAssistant.llm_judge_metric (audioJudgeOf 1)
         exAudio prAudio).1 = Except.ok ⟨1, JVal.s "because"⟩
    ∧ (AudioAssistant.llm_judge_metric (audioJudgeOf 0)
         exAudio prAudio).1 = Except.ok ⟨0, JVal.s "because"⟩ := by
  have hS : ∀ (judge : JVal → JVal → JVal → Record) (ex : Example) (pr : Record)
      (ctx q ans r : JVal) (g l c : Bool),
      getAttr ex.store "context" = Except.ok ctx →
      getAttr ex.store "question" = Except.ok q →
      getAttr pr "answer" = Except.ok ans →
      getAttr (judge ctx q ans) "is_grounded" = Except.ok (JVal.b g) →
      getAttr (judge ctx q ans) "language_match" = Except.ok (JVal.b l) →
      getAttr (judge ctx q ans) "citation_correct" = Except.ok (JVal.b c) →
      getAttr (judge ctx q ans) "rationale" = Except.ok r →
      (SearchAssistant.llm_judge_metric judge ex pr).1
        = Except.ok ⟨mean [if g then 1 else 0, if l then 1 else 0,
                           if c then 1 else 0], r⟩ := by
    intro judge ex pr ctx q ans r g l c h1 h2 h3 h4 h5 h6 h7
    simp only [SearchAssistant.llm_judge_metric, h1, h2, h3, h4, h5, h6, h7,
      pyFloat, bind, Except.bind, mean]
    simp only [List.sum_cons, List.sum_nil, List.length_cons, List.length_nil]
    norm_num
    ring
  have hA : ∀ (judge : JVal → JVal → Record) (ex : Example) (pr : Record)
      (req tmpl r : JVal) (v1 v2 v3 v4 v5 v6 : Rat),
      getAttr ex.store "requirements" = Except.ok req →
      getAttr pr "template" = Except.ok tmpl →
      getAttr (judge req tmpl) "general_score" = Except.ok (JVal.n v1) →
      getAttr (judge req tmpl) "tone_score" = Except.ok (JVal.n v2) →
      getAttr (judge req tmpl) "scenario_alignment_score" = Except.ok (JVal.n v3) →
      getAttr (judge req tmpl) "audience_match_score" = Except.ok (JVal.n v4) →
      getAttr (judge req tmpl) "language_consistency_score" = Except.ok (JVal.n v5) →
      getAttr (judge req tmpl) "language_appropriateness_score" = Except.ok (JVal.n v6) →
      getAttr (judge req tmpl) "rationale" = Except.ok r →
      (AudioAssistant.llm_judge_metric judge ex pr).1
        = Except.ok ⟨mean [v1, v2, v3, v4, v5, v6], r⟩ := by
    intro judge ex pr req tmpl r v1 v2 v3 v4 v5 v6 h1 h2 h3 h4 h5 h6 h7 h8 h9
    simp only [AudioAssistant.llm_judge_metric, h1, h2, h3, h4, h5, h6, h7, h8, h9,
      pyNum, pyLtHalf, bind, Except.bind, mean]
    simp only [List.sum_cons, List.sum_nil, List.length_cons, List.length_nil]
    norm_num
    ring
  refine ⟨hS, hA, ⟨?_, by rw [abs_le]; constructor <;> norm_num⟩, ?_, ?_, ?_, ?_⟩
  · rw [hS (searchJudgeOf true false true) exSearch prSearch
      (JVal.s "c") (JVal.s "q") (JVal.s "a") (JVal.s "because") true false true
      rfl rfl rfl rfl rfl rfl rfl]
    norm_num [mean]
  · rw [hS (searchJudgeOf true true true) exSearch prSearch
      (JVal.s "c") (JVal.s "q") (JVal.s "a") (JVal.s "because") true true true
      rfl rfl rfl rfl rfl rfl rfl]
    norm_num [mean]
  · rw [hS (searchJudgeOf false false false) exSearch prSearch
      (JVal.s "c") (JVal.s "q") (JVal.s "a") (JVal.s "because") false false false
      rfl rfl rfl rfl rfl rfl rfl]
    norm_num [mean]
  · rw [hA (audioJudgeOf 1) exAudio prAudio
      (JVal.s "req") (JVal.s "tpl") (JVal.s "because") 1 1 1 1 1 1
      rfl rfl rfl rfl rfl rfl rfl rfl rfl]
    norm_num [mean]
  · rw [hA (audioJudgeOf 0) exAudio prAudio
      (JVal.s "req") (JVal.s "tpl") (JVal.s "because") 0 0 0 0 0 0
      rfl rfl rfl rfl rfl rfl rfl rfl rfl]
    norm_num [mean]

/-- Witness for C2: the search metric under the judge answering true,
false, true returns the mean of the mapped criterion values. -/
theorem metric_score_is_mean_witness :
    (SearchAssistant.llm_judge_metric (searchJudgeOf true false true)
        exSearch prSearch).1
      = Except.ok ⟨mean [if true then 1 else 0, if false then 1 else 0,
                         if true then 1 else 0], JVal.s "because"⟩ :=
  metric_score_is_mean.1 (searchJudgeOf true false true) exSearch prSearch
    (JVal.s "c") (JVal.s "q") (JVal.s "a") (JVal.s "because") true false true
    rfl rfl rfl rfl rfl rfl rfl

/-- C4. For every judge response missing one of the required criterion
fields, the metric call llm_judge_metric fails with an evaluation error
rather than returning a score computed with a substituted default value
for the missing criterion. -/
theorem missing_criterion_fails :
    (∀ (judge : JVal → JVal → JVal → Record) (ex : Example) (pr : Record)
       (name : String),
       (name = "is_grounded" ∨ name = "language_match" ∨ name = "citation_correct") →
       (∀ a b c, lookupField name (judge a b c) = none) →
       ∃ e, (SearchAssistant.llm_judge_metric judge ex pr).1 = Except.error e)
    ∧ ∀ (judge : JVal → JVal → Record) (ex : Example) (pr : Record)
        (name : String),
        (name = "general_score" ∨ name = "tone_score"
          ∨ name = "scenario_alignment_score" ∨ name = "audience_match_score"
          ∨ name = "language_consistency_score"
          ∨ name = "language_appropriateness_score") →
        (∀ a b, lookupField name (judge a b) = none) →
        ∃ e, (AudioAssistant.llm_judge_metric judge ex pr).1 = Except.error e := by
  constructor
  · intro judge ex pr name hmem hmiss
    cases hres : (SearchAssistant.llm_judge_metric judge ex pr).1 with
    | error e => exact ⟨e, rfl⟩
    | ok p =>
        exfalso
        simp only [SearchAssistant.llm_judge_metric] at hres
        obtain ⟨ctx, hc, hres⟩ := bind_ok_inv hres
        obtain ⟨q, hq, hres⟩ := bind_ok_inv hres
        obtain ⟨ans, ha, hres⟩ := bind_ok_inv hres
        obtain ⟨g, hg, hres⟩ := bind_ok_inv hres
        obtain ⟨w1, hw1, hres⟩ := bind_ok_inv hres
        obtain ⟨l, hl, hres⟩ := bind_ok_inv hres
        obtain ⟨w2, hw2, hres⟩ := bind_ok_inv hres
        obtain ⟨c, hcc, hres⟩ := bind_ok_inv hres
        rcases hmem with h | h | h <;> subst h
        · exact absurd (hmiss ctx q ans) (by simp [getAttr_ok hg])
        · exact absurd (hmiss ctx q ans) (by simp [getAttr_ok hl])
        · exact absurd (hmiss ctx q ans) (by simp [getAttr_ok hcc])
  · intro judge ex pr name hmem hmiss
    cases hres : (AudioAssistant.llm_judge_metric judge ex pr).1 with
    | error e => exact ⟨e, rfl⟩
    | ok p =>
        exfalso
        simp only [AudioAssistant.llm_judge_metric] at hres
        obtain ⟨req, hr, hres⟩ := bind_ok_inv hres
        obtain ⟨tmpl, ht, hres⟩ := bind_ok_inv hres
        obtain ⟨lcs, hlcs, hres⟩ := bind_ok_inv hres
        obtain ⟨low, hlow, hres⟩ := bind_ok_inv hres
        obtain ⟨a1, ha1, hres⟩ := bind_ok_inv hres
        obtain ⟨w1, hw1, hres⟩ := bind_ok_inv hres
        obtain ⟨a2, ha2, hres⟩ := bind_ok_inv hres
        obtain ⟨w2, hw2, hres⟩ := bind_ok_inv hres
        obtain ⟨a3, ha3, hres⟩ := bind_ok_inv hres
        obtain ⟨w3, hw3, hres⟩ := bind_ok_inv hres
        obtain ⟨a4, ha4, hres⟩ := bind_ok_inv hres
        obtain ⟨w4, hw4, hres⟩ := bind_ok_inv hres
        obtain ⟨a5, ha5, hres⟩ := bind_ok_inv hres
        obtain ⟨w5, hw5, hres⟩ := bind_ok_inv hres
        obtain ⟨a6, ha6, hres⟩ := bind_ok_inv hres
        rcases hmem with h | h | h | h | h | h <;> subst h
        · exact absurd (hmiss req tmpl) (by simp [getAttr_ok ha1])
        · exact absurd (hmiss req tmpl) (by simp [getAttr_ok ha2])
        · exact absurd (hmiss req tmpl) (by simp [getAttr_ok ha3])
        · exact absurd (hmiss req tmpl) (by simp [getAttr_ok ha4])
        · exact absurd (hmiss req tmpl) (by simp [getAttr_ok hlcs])
        · exact absurd (hmiss req tmpl) (by simp [getAttr_ok ha6])

/-- Witness for C4: the concrete search judge missing language_match makes
the metric fail. -/
theorem missing_criterion_fails_witness :
    ∃ e, (SearchAssistant.llm_judge_metric searchJudgeMissing
            exSearch prSearch).1 = Except.error e :=
  missing_criterion_fails.1 searchJudgeMissing exSearch prSearch
    "language_match" (Or.inr (Or.inl rfl)) (fun _ _ _ => rfl)

end Mender
